import Mathlib

/-!
Shallow embedding of the ResumeSense Flask routing layer
(`backend/api/routes.py`) and proofs about its four endpoints:
`POST /analyze`, `GET /history`, `GET /resume/<id>`, `GET /analysis/<id>`.

Modelling conventions:
* Python strings are Lean `String`s; Python slicing `s[:n]` is `pySlice`
  (the first `n` characters), and Python string truthiness (`if s:`) is
  `strTruthy` (non-empty).
* The SQLAlchemy session is an explicit `DB` state: three append-only
  tables with per-table surrogate-key counters, plus a global `tick`
  that stamps `created_at` at each commit (commits are sequential inside
  a request, so ticks totally order the inserts).
* The NLP/ML collaborators (`PDFParser`, `JDMatcher`, `ATSChecker`,
  `PowerVerbSuggester`, `ResumeScorer`, `ResumeInsights`) live outside
  the routed layer; they are parameters (`Collaborators`), with opaque
  payloads reduced to the fields the routes actually read
  (`match_score`, `ats_score`, `quality_score`).
* An endpoint's outcome is `ApiResponse`: `ok` (HTTP 200),
  `clientError` (400/404 with the JSON error message) or `serverError`
  (the 500 produced by the blanket `except Exception` handler).
-/

/-- Python string truthiness: `if s:` is true iff `s` is non-empty. -/
def strTruthy (s : String) : Bool := s ≠ ""

/-- Truthiness of an optional string (`None` and `""` are both falsy). -/
def optStrTruthy : Option String → Bool
  | none => false
  | some s => strTruthy s

/-- Python slicing `s[:n]`: the first `n` characters of `s`. -/
def pySlice (s : String) (n : Nat) : String := ⟨s.data.take n⟩

/-- A row of the `resumes` table (`Resume` model). -/
structure Resume where
  id : Nat
  resume_text : String
  created_at : Nat
  deriving Repr, DecidableEq

/-- A row of the `jobs` table (`Job` model). -/
structure Job where
  id : Nat
  job_description : String
  created_at : Nat
  deriving Repr, DecidableEq

/-- Output of `JDMatcher.compute_match_score` (a dict whose
`match_score` entry the route reads; the rest is an opaque payload). -/
structure MatchResult where
  match_score : Int
  payload : String
  deriving Repr, DecidableEq

/-- Output of `ATSChecker.check_compliance`. -/
structure AtsResult where
  ats_score : Int
  payload : String
  deriving Repr, DecidableEq

/-- Output of `ResumeScorer.score_resume`. -/
structure QualityResult where
  quality_score : Int
  payload : String
  deriving Repr, DecidableEq

/-- The `power_verbs` object assembled by the route:
`find_weak_verbs(...)[:10]` plus `get_power_verb_stats(...)`. -/
structure PowerVerbs where
  findings : List String
  stats : String
  deriving Repr, DecidableEq

/-- A row of the `analysis_results` table (`AnalysisResult` model). -/
structure AnalysisResult where
  id : Nat
  resume_id : Nat
  job_id : Option Nat
  match_score : Option Int
  ats_score : Int
  quality_score : Int
  ats_flags : AtsResult
  power_verb_suggestions : PowerVerbs
  match_details : Option MatchResult
  created_at : Nat
  deriving Repr, DecidableEq

/-- The relational store seen through the per-request session:
three append-only tables, per-table id sequences, and a `tick` stamping
`created_at` at each commit. -/
structure DB where
  resumes : List Resume
  jobs : List Job
  analyses : List AnalysisResult
  next_resume_id : Nat
  next_job_id : Nat
  next_analysis_id : Nat
  tick : Nat
  deriving Repr, DecidableEq

/-- An empty store. -/
def DB.empty : DB := ⟨[], [], [], 1, 1, 1, 0⟩

/-- `db.add(Resume(...)); db.commit(); db.refresh(...)`: append the row,
hand back its generated id and timestamp. -/
def DB.insertResume (db : DB) (text : String) : Resume × DB :=
  let row : Resume := ⟨db.next_resume_id, text, db.tick⟩
  (row, { db with
            resumes := db.resumes ++ [row]
            next_resume_id := db.next_resume_id + 1
            tick := db.tick + 1 })

/-- `db.add(Job(...)); db.commit(); db.refresh(...)`. -/
def DB.insertJob (db : DB) (jd : String) : Job × DB :=
  let row : Job := ⟨db.next_job_id, jd, db.tick⟩
  (row, { db with
            jobs := db.jobs ++ [row]
            next_job_id := db.next_job_id + 1
            tick := db.tick + 1 })

/-- `db.add(AnalysisResult(...)); db.commit(); db.refresh(...)`. -/
def DB.insertAnalysis (db : DB) (resume_id : Nat) (job_id : Option Nat)
    (match_score : Option Int) (ats_score quality_score : Int)
    (ats_flags : AtsResult) (pv : PowerVerbs) (md : Option MatchResult) :
    AnalysisResult × DB :=
  let row : AnalysisResult :=
    ⟨db.next_analysis_id, resume_id, job_id, match_score, ats_score,
      quality_score, ats_flags, pv, md, db.tick⟩
  (row, { db with
            analyses := db.analyses ++ [row]
            next_analysis_id := db.next_analysis_id + 1
            tick := db.tick + 1 })

/-- `db.query(Resume).filter(Resume.id == rid).first()`. -/
def DB.findResume (db : DB) (rid : Nat) : Option Resume :=
  db.resumes.find? (fun r => r.id == rid)

/-- `db.query(Job).filter(Job.id == jid).first()` (the `item.job`
relationship). -/
def DB.findJob (db : DB) (jid : Nat) : Option Job :=
  db.jobs.find? (fun j => j.id == jid)

/-- `db.query(AnalysisResult).filter(AnalysisResult.id == aid).first()`. -/
def DB.findAnalysis (db : DB) (aid : Nat) : Option AnalysisResult :=
  db.analyses.find? (fun a => a.id == aid)

/-- The external NLP/ML collaborators invoked by the routes; their
internals are out of scope, so they are request-level parameters. -/
structure Collaborators where
  extract_text_from_bytes : List Nat → Option String
  compute_match_score : String → String → MatchResult
  check_compliance : String → AtsResult
  find_weak_verbs : String → List String
  get_power_verb_stats : String → String
  score_resume : String → String → QualityResult
  extract_insights : String → String

/-- The uploaded `resume_file` part: a filename and raw bytes.
Werkzeug `FileStorage` truthiness is `bool(self.filename)`. -/
structure FileUpload where
  filename : String
  content : List Nat
  deriving Repr, DecidableEq

/-- A `POST /analyze` request: optional multipart file plus the two
form fields (`request.form.get` returns `None` when absent). -/
structure AnalyzeRequest where
  resume_file : Option FileUpload
  resume_text : Option String
  job_description : Option String
  deriving Repr, DecidableEq

/-- The JSON object returned by a successful analyze call. -/
structure AnalyzeResponse where
  match_score : Option Int
  match_details : Option MatchResult
  ats_score : Int
  ats_report : AtsResult
  power_verbs : PowerVerbs
  quality_score : Int
  quality_details : QualityResult
  resume_insights : String
  analysis_id : Nat
  resume_id : Nat
  job_id : Option Nat
  deriving Repr, DecidableEq

/-- Outcome of a routed request: 200 with a body, a 4xx client error
with its JSON message, or the blanket 500 handler. -/
inductive ApiResponse (α : Type) where
  | ok (body : α)
  | clientError (status : Nat) (msg : String)
  | serverError (msg : String)
  deriving Repr, DecidableEq

/-- `allowed_file(filename)`: a dot occurs in the name and the part
after the last dot (`rsplit('.', 1)[1]`), lowercased, is in
`Config.ALLOWED_EXTENSIONS` (externally configured, hence a
parameter); computed on the character list. -/
def allowed_file (allowed : List String) (filename : String) : Bool :=
  filename.data.contains '.' &&
    allowed.contains
      ⟨(filename.data.reverse.takeWhile (· ≠ '.')).reverse.map
        Char.toLower⟩

/-- The `resume_text = request.form.get("resume_text")` fallback plus
the final `if not resume_text: return 400 "No resume provided"`. -/
def fallbackText (req : AnalyzeRequest) : Except String String :=
  match req.resume_text with
  | some t => if strTruthy t then .ok t else .error "No resume provided"
  | none => .error "No resume provided"

/-- Resume-text resolution of `analyze_resume` (routes.py lines 43-56):
if an accepted file is attached, extract text from its bytes and fail
with `"Could not read PDF text"` when extraction yields nothing usable;
otherwise fall back to the `resume_text` form field. -/
def resolveResumeText (allowed : List String) (co : Collaborators)
    (req : AnalyzeRequest) : Except String String :=
  match req.resume_file with
  | some f =>
    if strTruthy f.filename && allowed_file allowed f.filename then
      match co.extract_text_from_bytes f.content with
      | some t =>
        if strTruthy t then .ok t else .error "Could not read PDF text"
      | none => .error "Could not read PDF text"
    else fallbackText req
  | none => fallbackText req

/-- `POST /analyze` (`analyze_resume` in routes.py): resolve the resume
text, run the collaborators (match only when a job description is
truthy), then insert Resume, conditionally Job, then AnalysisResult,
committing each, and return the combined JSON. -/
def analyze_resume (allowed : List String) (co : Collaborators)
    (req : AnalyzeRequest) (db : DB) : ApiResponse AnalyzeResponse × DB :=
  match resolveResumeText allowed co req with
  | .error msg => (.clientError 400 msg, db)
  | .ok resume_text =>
    let jd_text := req.job_description.getD ""
    let matchPart : Option MatchResult :=
      if strTruthy jd_text then
        some (co.compute_match_score resume_text jd_text)
      else none
    let ats_result := co.check_compliance resume_text
    let power_verbs : PowerVerbs :=
      ⟨(co.find_weak_verbs resume_text).take 10,
        co.get_power_verb_stats resume_text⟩
    let quality_result := co.score_resume resume_text jd_text
    let insights := co.extract_insights resume_text
    let ins_r := db.insertResume resume_text
    let new_resume := ins_r.1
    let db1 := ins_r.2
    let ins_j : Option Job × DB :=
      if strTruthy jd_text then
        let p := db1.insertJob jd_text
        (some p.1, p.2)
      else (none, db1)
    let new_job := ins_j.1
    let db2 := ins_j.2
    let ins_a := db2.insertAnalysis new_resume.id (new_job.map (·.id))
      (matchPart.map (·.match_score)) ats_result.ats_score
      quality_result.quality_score ats_result power_verbs matchPart
    let new_analysis := ins_a.1
    let db3 := ins_a.2
    (.ok { match_score := matchPart.map (·.match_score)
           match_details := matchPart
           ats_score := ats_result.ats_score
           ats_report := ats_result
           power_verbs := power_verbs
           quality_score := quality_result.quality_score
           quality_details := quality_result
           resume_insights := insights
           analysis_id := new_analysis.id
           resume_id := new_resume.id
           job_id := new_job.map (·.id) }, db3)

/-- Descending-`created_at` order used by the history query
(`order_by(AnalysisResult.created_at.desc())`). -/
def createdDesc (a b : AnalysisResult) : Prop :=
  b.created_at ≤ a.created_at

instance : DecidableRel createdDesc := fun a b =>
  inferInstanceAs (Decidable (b.created_at ≤ a.created_at))

instance : IsTotal AnalysisResult createdDesc :=
  ⟨fun a b => (Nat.le_total b.created_at a.created_at).symm.symm⟩

instance : IsTrans AnalysisResult createdDesc :=
  ⟨fun _ _ _ hab hbc => Nat.le_trans hbc hab⟩

/-- The `resume_preview` conditional expression of `get_history`
(routes.py line 163): when `item.resume` is truthy and its text exceeds
200 characters, truncate and add an ellipsis; otherwise the else branch
reads `item.resume.resume_text`, which raises `AttributeError` when the
associated Resume row is absent (caught by the 500 handler). -/
def resume_preview_of : Option Resume → Except String String
  | some res =>
    .ok (if res.resume_text.length > 200
         then pySlice res.resume_text 200 ++ "..."
         else res.resume_text)
  | none =>
    .error "AttributeError: NoneType object has no attribute resume_text"

/-- The `jd_preview` conditional expression of `get_history`
(routes.py line 164): its else branch guards `item.job`, yielding
`None` when no Job row is associated. -/
def jd_preview_of : Option Job → Option String
  | some job =>
    some (if job.job_description.length > 200
          then pySlice job.job_description 200 ++ "..."
          else job.job_description)
  | none => none

/-- One element of the `GET /history` JSON array. -/
structure HistoryEntry where
  id : Nat
  resume_id : Nat
  job_id : Option Nat
  match_score : Option Int
  ats_score : Int
  quality_score : Int
  created_at : Nat
  resume_preview : String
  jd_preview : Option String
  deriving Repr, DecidableEq

/-- Build one history entry from an `AnalysisResult` row; the loop body
of `get_history`, which propagates the `AttributeError` of
`resume_preview_of` to the surrounding exception handler. -/
def historyEntry (db : DB) (item : AnalysisResult) :
    Except String HistoryEntry :=
  match resume_preview_of (db.findResume item.resume_id) with
  | .error e => .error e
  | .ok rp =>
    .ok { id := item.id
          resume_id := item.resume_id
          job_id := item.job_id
          match_score := item.match_score
          ats_score := item.ats_score
          quality_score := item.quality_score
          created_at := item.created_at
          resume_preview := rp
          jd_preview := jd_preview_of (item.job_id.bind db.findJob) }

/-- The `for item in query` loop of `get_history`: build entries left
to right, aborting at the first raised exception. -/
def buildHistory (db : DB) : List AnalysisResult →
    Except String (List HistoryEntry)
  | [] => .ok []
  | item :: rest =>
    match historyEntry db item with
    | .error e => .error e
    | .ok entry =>
      match buildHistory db rest with
      | .error e => .error e
      | .ok entries => .ok (entry :: entries)

/-- `GET /history` (`get_history` in routes.py): query the
`AnalysisResult` rows ordered by `created_at` descending, keep at most
`limit` of them, and render each with previews; an exception while
building an entry becomes the blanket 500. -/
def get_history (limit : Nat) (db : DB) :
    ApiResponse (List HistoryEntry) × DB :=
  let query := (List.insertionSort createdDesc db.analyses).take limit
  match buildHistory db query with
  | .error e => (.serverError e, db)
  | .ok history => (.ok history, db)

/-- The JSON body of `GET /resume/<id>`. -/
structure ResumeView where
  id : Nat
  resume_text : String
  created_at : Nat
  deriving Repr, DecidableEq

/-- `GET /resume/<id>` (`get_resume` in routes.py): first matching row
or a 404 `"Resume not found"`. -/
def get_resume (rid : Nat) (db : DB) : ApiResponse ResumeView × DB :=
  match db.findResume rid with
  | none => (.clientError 404 "Resume not found", db)
  | some r => (.ok ⟨r.id, r.resume_text, r.created_at⟩, db)

/-- The JSON body of `GET /analysis/<id>`: the full row plus the
(guarded) associated resume text and job description. -/
structure AnalysisView where
  id : Nat
  resume_id : Nat
  job_id : Option Nat
  match_score : Option Int
  ats_score : Int
  quality_score : Int
  ats_flags : AtsResult
  power_verb_suggestions : PowerVerbs
  match_details : Option MatchResult
  created_at : Nat
  resume_text : Option String
  job_description : Option String
  deriving Repr, DecidableEq

/-- `GET /analysis/<id>` (`get_analysis` in routes.py): first matching
row rendered in full, or a 404 `"Analysis result not found"`; here both
relationship accesses are guarded (`if item.resume else None`). -/
def get_analysis (aid : Nat) (db : DB) : ApiResponse AnalysisView × DB :=
  match db.findAnalysis aid with
  | none => (.clientError 404 "Analysis result not found", db)
  | some item =>
    (.ok { id := item.id
           resume_id := item.resume_id
           job_id := item.job_id
           match_score := item.match_score
           ats_score := item.ats_score
           quality_score := item.quality_score
           ats_flags := item.ats_flags
           power_verb_suggestions := item.power_verb_suggestions
           match_details := item.match_details
           created_at := item.created_at
           resume_text := (db.findResume item.resume_id).map
             (·.resume_text)
           job_description := (item.job_id.bind db.findJob).map
             (·.job_description) }, db)

/-- Characterization of a successful analyze with a truthy job
description: the exact response and the exact post-state. -/
lemma analyze_ok_of_jd (allowed : List String) (co : Collaborators)
    (req : AnalyzeRequest) (db : DB) (rt : String)
    (hres : resolveResumeText allowed co req = .ok rt)
    (hjd : strTruthy (req.job_description.getD "") = true) :
    analyze_resume allowed co req db =
      (.ok { match_score :=
               some (co.compute_match_score rt
                 (req.job_description.getD "")).match_score
             match_details :=
               some (co.compute_match_score rt (req.job_description.getD ""))
             ats_score := (co.check_compliance rt).ats_score
             ats_report := co.check_compliance rt
             power_verbs :=
               ⟨(co.find_weak_verbs rt).take 10, co.get_power_verb_stats rt⟩
             quality_score :=
               (co.score_resume rt (req.job_description.getD "")).quality_score
             quality_details :=
               co.score_resume rt (req.job_description.getD "")
             resume_insights := co.extract_insights rt
             analysis_id := db.next_analysis_id
             resume_id := db.next_resume_id
             job_id := some db.next_job_id },
       { resumes := db.resumes ++ [⟨db.next_resume_id, rt, db.tick⟩]
         jobs := db.jobs ++
           [⟨db.next_job_id, req.job_description.getD "", db.tick + 1⟩]
         analyses := db.analyses ++
           [⟨db.next_analysis_id, db.next_resume_id, some db.next_job_id,
             some (co.compute_match_score rt
               (req.job_description.getD "")).match_score,
             (co.check_compliance rt).ats_score,
             (co.score_resume rt (req.job_description.getD "")).quality_score,
             co.check_compliance rt,
             ⟨(co.find_weak_verbs rt).take 10, co.get_power_verb_stats rt⟩,
             some (co.compute_match_score rt (req.job_description.getD "")),
             db.tick + 2⟩]
         next_resume_id := db.next_resume_id + 1
         next_job_id := db.next_job_id + 1
         next_analysis_id := db.next_analysis_id + 1
         tick := db.tick + 3 }) := by
  simp [analyze_resume, hres, hjd, DB.insertResume, DB.insertJob,
    DB.insertAnalysis]

/-- Characterization of a successful analyze without a truthy job
description: no match outputs, no Job insert. -/
lemma analyze_ok_of_no_jd (allowed : List String) (co : Collaborators)
    (req : AnalyzeRequest) (db : DB) (rt : String)
    (hres : resolveResumeText allowed co req = .ok rt)
    (hjd : strTruthy (req.job_description.getD "") = false) :
    analyze_resume allowed co req db =
      (.ok { match_score := none
             match_details := none
             ats_score := (co.check_compliance rt).ats_score
             ats_report := co.check_compliance rt
             power_verbs :=
               ⟨(co.find_weak_verbs rt).take 10, co.get_power_verb_stats rt⟩
             quality_score :=
               (co.score_resume rt (req.job_description.getD "")).quality_score
             quality_details :=
               co.score_resume rt (req.job_description.getD "")
             resume_insights := co.extract_insights rt
             analysis_id := db.next_analysis_id
             resume_id := db.next_resume_id
             job_id := none },
       { resumes := db.resumes ++ [⟨db.next_resume_id, rt, db.tick⟩]
         jobs := db.jobs
         analyses := db.analyses ++
           [⟨db.next_analysis_id, db.next_resume_id, none, none,
             (co.check_compliance rt).ats_score,
             (co.score_resume rt (req.job_description.getD "")).quality_score,
             co.check_compliance rt,
             ⟨(co.find_weak_verbs rt).take 10, co.get_power_verb_stats rt⟩,
             none, db.tick + 1⟩]
         next_resume_id := db.next_resume_id + 1
         next_job_id := db.next_job_id
         next_analysis_id := db.next_analysis_id + 1
         tick := db.tick + 2 }) := by
  simp [analyze_resume, hres, hjd, DB.insertResume, DB.insertJob,
    DB.insertAnalysis]

/-- An analyze call that returns a client error leaves the store
untouched: only the early validation branch produces 4xx. -/
lemma analyze_clientError_db_eq (allowed : List String) (co : Collaborators)
    (req : AnalyzeRequest) (db : DB) (s : Nat) (m : String) (db' : DB)
    (h : analyze_resume allowed co req db = (.clientError s m, db')) :
    db' = db := by
  cases hres : resolveResumeText allowed co req with
  | error msg => simp [analyze_resume, hres] at h; exact h.2.symm
  | ok rt =>
    cases hjd : strTruthy (req.job_description.getD "") with
    | true => rw [analyze_ok_of_jd allowed co req db rt hres hjd] at h
              simp at h
    | false => rw [analyze_ok_of_no_jd allowed co req db rt hres hjd] at h
               simp at h

/-- Concrete collaborator instance used to exercise the theorems on
explicit inputs. -/
def coSample : Collaborators where
  extract_text_from_bytes := fun _ => some "parsed resume text"
  compute_match_score := fun _ _ => ⟨85, "m"⟩
  check_compliance := fun _ => ⟨70, "a"⟩
  find_weak_verbs := fun _ => []
  get_power_verb_stats := fun _ => "s"
  score_resume := fun _ _ => ⟨90, "q"⟩
  extract_insights := fun _ => "i"

/-- C1: a successful analyze appends exactly one Resume row and exactly
one AnalysisResult row, the AnalysisResult references the new Resume's
generated id, and the commits are ordered Resume, then Job (when one is
inserted), then AnalysisResult, each earlier commit's tick strictly
below the later one's. -/
theorem analyze_creates_rows_in_order (allowed : List String)
    (co : Collaborators) (req : AnalyzeRequest) (db : DB)
    (resp : AnalyzeResponse) (db' : DB)
    (h : analyze_resume allowed co req db = (.ok resp, db')) :
    ∃ r a, db'.resumes = db.resumes ++ [r] ∧
      db'.analyses = db.analyses ++ [a] ∧
      a.resume_id = r.id ∧
      r.created_at < a.created_at ∧
      (db'.jobs = db.jobs ∨
        ∃ j, db'.jobs = db.jobs ++ [j] ∧ r.created_at < j.created_at ∧
          j.created_at < a.created_at ∧ a.job_id = some j.id) := by
  cases hres : resolveResumeText allowed co req with
  | error msg => simp [analyze_resume, hres] at h
  | ok rt =>
    cases hjd : strTruthy (req.job_description.getD "") with
    | true =>
      rw [analyze_ok_of_jd allowed co req db rt hres hjd] at h
      injection h with h1 h2
      injection h1 with h1
      subst h1; subst h2
      exact ⟨_, _, rfl, rfl, rfl, Nat.lt_succ_of_lt (Nat.lt_succ_self db.tick),
        Or.inr ⟨_, rfl, Nat.lt_succ_self db.tick,
          Nat.lt_succ_self (db.tick + 1), rfl⟩⟩
    | false =>
      rw [analyze_ok_of_no_jd allowed co req db rt hres hjd] at h
      injection h with h1 h2
      injection h1 with h1
      subst h1; subst h2
      exact ⟨_, _, rfl, rfl, rfl, Nat.lt_succ_self db.tick, Or.inl rfl⟩

/-- Witness for C1 on a concrete request with a job description. -/
theorem analyze_creates_rows_in_order_witness :
    ∃ r a,
      (⟨[⟨1, "r", 0⟩], [⟨1, "j", 1⟩],
        [⟨1, 1, some 1, some 85, 70, 90, ⟨70, "a"⟩, ⟨[], "s"⟩,
          some ⟨85, "m"⟩, 2⟩], 2, 2, 2, 3⟩ : DB).resumes =
        DB.empty.resumes ++ [r] ∧
      (⟨[⟨1, "r", 0⟩], [⟨1, "j", 1⟩],
        [⟨1, 1, some 1, some 85, 70, 90, ⟨70, "a"⟩, ⟨[], "s"⟩,
          some ⟨85, "m"⟩, 2⟩], 2, 2, 2, 3⟩ : DB).analyses =
        DB.empty.analyses ++ [a] ∧
      a.resume_id = r.id ∧
      r.created_at < a.created_at ∧
      ((⟨[⟨1, "r", 0⟩], [⟨1, "j", 1⟩],
        [⟨1, 1, some 1, some 85, 70, 90, ⟨70, "a"⟩, ⟨[], "s"⟩,
          some ⟨85, "m"⟩, 2⟩], 2, 2, 2, 3⟩ : DB).jobs =
          DB.empty.jobs ∨
        ∃ j, (⟨[⟨1, "r", 0⟩], [⟨1, "j", 1⟩],
          [⟨1, 1, some 1, some 85, 70, 90, ⟨70, "a"⟩, ⟨[], "s"⟩,
            some ⟨85, "m"⟩, 2⟩], 2, 2, 2, 3⟩ : DB).jobs =
            DB.empty.jobs ++ [j] ∧
          r.created_at < j.created_at ∧ j.created_at < a.created_at ∧
          a.job_id = some j.id) :=
  analyze_creates_rows_in_order [] coSample ⟨none, some "r", some "j"⟩
    DB.empty
    ⟨some 85, some ⟨85, "m"⟩, 70, ⟨70, "a"⟩, ⟨[], "s"⟩, 90, ⟨90, "q"⟩,
      "i", 1, 1, some 1⟩
    ⟨[⟨1, "r", 0⟩], [⟨1, "j", 1⟩],
      [⟨1, 1, some 1, some 85, 70, 90, ⟨70, "a"⟩, ⟨[], "s"⟩,
        some ⟨85, "m"⟩, 2⟩], 2, 2, 2, 3⟩
    (by decide)

/-- C2: in every successful analyze response, `match_score` and
`match_details` are absent together or present together, and when no
job description was supplied both are null in the response and in the
persisted AnalysisResult row. -/
theorem analyze_match_fields_paired (allowed : List String)
    (co : Collaborators) (req : AnalyzeRequest) (db : DB)
    (resp : AnalyzeResponse) (db' : DB)
    (h : analyze_resume allowed co req db = (.ok resp, db')) :
    (resp.match_score = none ↔ resp.match_details = none) ∧
    (req.job_description = none →
      resp.match_score = none ∧ resp.match_details = none ∧
      ∃ a, db'.analyses = db.analyses ++ [a] ∧
        a.match_score = none ∧ a.match_details = none) := by
  cases hres : resolveResumeText allowed co req with
  | error msg => simp [analyze_resume, hres] at h
  | ok rt =>
    cases hjd : strTruthy (req.job_description.getD "") with
    | true =>
      rw [analyze_ok_of_jd allowed co req db rt hres hjd] at h
      injection h with h1 h2
      injection h1 with h1
      subst h1; subst h2
      refine ⟨by simp, fun hnone => ?_⟩
      rw [hnone] at hjd
      simp [strTruthy] at hjd
    | false =>
      rw [analyze_ok_of_no_jd allowed co req db rt hres hjd] at h
      injection h with h1 h2
      injection h1 with h1
      subst h1; subst h2
      refine ⟨by simp, fun _ => ⟨rfl, rfl, _, rfl, rfl, rfl⟩⟩

/-- Witness for C2 on a concrete request without a job description. -/
theorem analyze_match_fields_paired_witness :
    ((⟨none, none, 70, ⟨70, "a"⟩, ⟨[], "s"⟩, 90, ⟨90, "q"⟩, "i", 1, 1,
        none⟩ : AnalyzeResponse).match_score = none ↔
      (⟨none, none, 70, ⟨70, "a"⟩, ⟨[], "s"⟩, 90, ⟨90, "q"⟩, "i", 1, 1,
        none⟩ : AnalyzeResponse).match_details = none) ∧
    ((⟨none, some "r", none⟩ : AnalyzeRequest).job_description = none →
      (⟨none, none, 70, ⟨70, "a"⟩, ⟨[], "s"⟩, 90, ⟨90, "q"⟩, "i", 1, 1,
        none⟩ : AnalyzeResponse).match_score = none ∧
      (⟨none, none, 70, ⟨70, "a"⟩, ⟨[], "s"⟩, 90, ⟨90, "q"⟩, "i", 1, 1,
        none⟩ : AnalyzeResponse).match_details = none ∧
      ∃ a, (⟨[⟨1, "r", 0⟩], [],
          [⟨1, 1, none, none, 70, 90, ⟨70, "a"⟩, ⟨[], "s"⟩, none, 1⟩],
          2, 1, 2, 2⟩ : DB).analyses = DB.empty.analyses ++ [a] ∧
        a.match_score = none ∧ a.match_details = none) :=
  analyze_match_fields_paired [] coSample ⟨none, some "r", none⟩ DB.empty
    ⟨none, none, 70, ⟨70, "a"⟩, ⟨[], "s"⟩, 90, ⟨90, "q"⟩, "i", 1, 1, none⟩
    ⟨[⟨1, "r", 0⟩], [],
      [⟨1, 1, none, none, 70, 90, ⟨70, "a"⟩, ⟨[], "s"⟩, none, 1⟩],
      2, 1, 2, 2⟩
    (by decide)

/-- C3: a successful analyze appends a Job row iff the (truthy) job
description was supplied; when it was, the returned `job_id` and the
persisted AnalysisResult's `job_id` both equal the new Job row's
generated id, and when absent the returned `job_id` is null and the
jobs table is untouched. -/
theorem analyze_job_row_iff_jd (allowed : List String)
    (co : Collaborators) (req : AnalyzeRequest) (db : DB)
    (resp : AnalyzeResponse) (db' : DB)
    (h : analyze_resume allowed co req db = (.ok resp, db')) :
    (strTruthy (req.job_description.getD "") = true →
      ∃ j a, db'.jobs = db.jobs ++ [j] ∧ resp.job_id = some j.id ∧
        db'.analyses = db.analyses ++ [a] ∧ a.job_id = some j.id) ∧
    (strTruthy (req.job_description.getD "") = false →
      db'.jobs = db.jobs ∧ resp.job_id = none ∧
      ∃ a, db'.analyses = db.analyses ++ [a] ∧ a.job_id = none) := by
  cases hres : resolveResumeText allowed co req with
  | error msg => simp [analyze_resume, hres] at h
  | ok rt =>
    cases hjd : strTruthy (req.job_description.getD "") with
    | true =>
      rw [analyze_ok_of_jd allowed co req db rt hres hjd] at h
      injection h with h1 h2
      injection h1 with h1
      subst h1; subst h2
      exact ⟨fun _ => ⟨_, _, rfl, rfl, rfl, rfl⟩,
        fun hcontra => by simp [hjd] at hcontra⟩
    | false =>
      rw [analyze_ok_of_no_jd allowed co req db rt hres hjd] at h
      injection h with h1 h2
      injection h1 with h1
      subst h1; subst h2
      exact ⟨fun hcontra => by simp [hjd] at hcontra,
        fun _ => ⟨rfl, rfl, _, rfl, rfl⟩⟩

/-- Witness for C3 on a concrete request with a job description. -/
theorem analyze_job_row_iff_jd_witness :
    (strTruthy ((⟨none, some "r", some "j"⟩ :
        AnalyzeRequest).job_description.getD "") = true →
      ∃ j a,
        (⟨[⟨1, "r", 0⟩], [⟨1, "j", 1⟩],
          [⟨1, 1, some 1, some 85, 70, 90, ⟨70, "a"⟩, ⟨[], "s"⟩,
            some ⟨85, "m"⟩, 2⟩], 2, 2, 2, 3⟩ : DB).jobs =
          DB.empty.jobs ++ [j] ∧
        (⟨some 85, some ⟨85, "m"⟩, 70, ⟨70, "a"⟩, ⟨[], "s"⟩, 90,
          ⟨90, "q"⟩, "i", 1, 1, some 1⟩ : AnalyzeResponse).job_id =
          some j.id ∧
        (⟨[⟨1, "r", 0⟩], [⟨1, "j", 1⟩],
          [⟨1, 1, some 1, some 85, 70, 90, ⟨70, "a"⟩, ⟨[], "s"⟩,
            some ⟨85, "m"⟩, 2⟩], 2, 2, 2, 3⟩ : DB).analyses =
          DB.empty.analyses ++ [a] ∧
        a.job_id = some j.id) ∧
    (strTruthy ((⟨none, some "r", some "j"⟩ :
        AnalyzeRequest).job_description.getD "") = false →
      (⟨[⟨1, "r", 0⟩], [⟨1, "j", 1⟩],
        [⟨1, 1, some 1, some 85, 70, 90, ⟨70, "a"⟩, ⟨[], "s"⟩,
          some ⟨85, "m"⟩, 2⟩], 2, 2, 2, 3⟩ : DB).jobs = DB.empty.jobs ∧
      (⟨some 85, some ⟨85, "m"⟩, 70, ⟨70, "a"⟩, ⟨[], "s"⟩, 90, ⟨90, "q"⟩,
        "i", 1, 1, some 1⟩ : AnalyzeResponse).job_id = none ∧
      ∃ a,
        (⟨[⟨1, "r", 0⟩], [⟨1, "j", 1⟩],
          [⟨1, 1, some 1, some 85, 70, 90, ⟨70, "a"⟩, ⟨[], "s"⟩,
            some ⟨85, "m"⟩, 2⟩], 2, 2, 2, 3⟩ : DB).analyses =
          DB.empty.analyses ++ [a] ∧
        a.job_id = none) :=
  analyze_job_row_iff_jd [] coSample ⟨none, some "r", some "j"⟩ DB.empty
    ⟨some 85, some ⟨85, "m"⟩, 70, ⟨70, "a"⟩, ⟨[], "s"⟩, 90, ⟨90, "q"⟩,
      "i", 1, 1, some 1⟩
    ⟨[⟨1, "r", 0⟩], [⟨1, "j", 1⟩],
      [⟨1, 1, some 1, some 85, 70, 90, ⟨70, "a"⟩, ⟨[], "s"⟩,
        some ⟨85, "m"⟩, 2⟩], 2, 2, 2, 3⟩
    (by decide)

/-- C9: a `job_description` form field equal to the empty string is
handled exactly like an absent one — the whole analyze outcome is
identical, and on success the match fields, `job_id` and the jobs table
show no job. -/
theorem analyze_empty_jd_like_absent (allowed : List String)
    (co : Collaborators) (req : AnalyzeRequest) (db : DB)
    (hjd : req.job_description = some "") :
    analyze_resume allowed co req db =
      analyze_resume allowed co
        ⟨req.resume_file, req.resume_text, none⟩ db ∧
    ∀ resp db', analyze_resume allowed co req db = (.ok resp, db') →
      resp.match_score = none ∧ resp.match_details = none ∧
      resp.job_id = none ∧ db'.jobs = db.jobs := by
  obtain ⟨rf, rtx, jdf⟩ := req
  simp only at hjd
  subst hjd
  refine ⟨rfl, fun resp db' h => ?_⟩
  cases hres : resolveResumeText allowed co ⟨rf, rtx, some ""⟩ with
  | error msg => simp [analyze_resume, hres] at h
  | ok rt =>
    rw [analyze_ok_of_no_jd allowed co ⟨rf, rtx, some ""⟩ db rt hres
      (by simp [strTruthy])] at h
    injection h with h1 h2
    injection h1 with h1
    subst h1; subst h2
    exact ⟨rfl, rfl, rfl, rfl⟩

/-- Witness for C9 on a concrete request carrying an empty
`job_description`. -/
theorem analyze_empty_jd_like_absent_witness :
    analyze_resume [] coSample ⟨none, some "r", some ""⟩ DB.empty =
      analyze_resume [] coSample ⟨none, some "r", none⟩ DB.empty ∧
    ∀ resp db',
      analyze_resume [] coSample ⟨none, some "r", some ""⟩ DB.empty =
        (.ok resp, db') →
      resp.match_score = none ∧ resp.match_details = none ∧
      resp.job_id = none ∧ db'.jobs = DB.empty.jobs :=
  analyze_empty_jd_like_absent [] coSample ⟨none, some "r", some ""⟩
    DB.empty rfl

/-- C5: when an accepted file is attached (truthy filename, allowed
extension) and extraction yields no usable text, analyze fails with the
400 input error `"Could not read PDF text"` and never falls back to the
`resume_text` form field; the store is untouched. -/
theorem analyze_failed_extraction_no_fallback (allowed : List String)
    (co : Collaborators) (req : AnalyzeRequest) (db : DB) (f : FileUpload)
    (hf : req.resume_file = some f)
    (hname : strTruthy f.filename = true)
    (hext : allowed_file allowed f.filename = true)
    (hnotext : optStrTruthy (co.extract_text_from_bytes f.content) = false) :
    analyze_resume allowed co req db =
      (.clientError 400 "Could not read PDF text", db) := by
  have hres : resolveResumeText allowed co req =
      .error "Could not read PDF text" := by
    rw [resolveResumeText, hf]
    simp only [hname, hext, Bool.and_self, if_true]
    cases hex : co.extract_text_from_bytes f.content with
    | none => rfl
    | some t =>
      rw [hex] at hnotext
      simp only [optStrTruthy] at hnotext
      simp only [hnotext, Bool.false_eq_true, if_false]
  rw [analyze_resume, hres]

/-- Witness for C5: an accepted `.pdf` upload whose extraction returns
nothing, alongside a perfectly usable `resume_text` field that is
nevertheless ignored. -/
theorem analyze_failed_extraction_no_fallback_witness :
    analyze_resume ["pdf"]
      ⟨fun _ => none, coSample.compute_match_score,
        coSample.check_compliance, coSample.find_weak_verbs,
        coSample.get_power_verb_stats, coSample.score_resume,
        coSample.extract_insights⟩
      ⟨some ⟨"cv.pdf", [37, 80, 68, 70]⟩, some "usable resume text",
        none⟩ DB.empty =
      (.clientError 400 "Could not read PDF text", DB.empty) :=
  analyze_failed_extraction_no_fallback ["pdf"]
    ⟨fun _ => none, coSample.compute_match_score,
      coSample.check_compliance, coSample.find_weak_verbs,
      coSample.get_power_verb_stats, coSample.score_resume,
      coSample.extract_insights⟩
    ⟨some ⟨"cv.pdf", [37, 80, 68, 70]⟩, some "usable resume text", none⟩
    DB.empty ⟨"cv.pdf", [37, 80, 68, 70]⟩ rfl (by decide) (by decide) rfl

/-- A collaborator set whose text extraction never yields text. -/
def coNoText : Collaborators :=
  { coSample with extract_text_from_bytes := fun _ => none }

/-- Whether the request carries a file the route will try to extract
from: a `resume_file` part with a truthy filename and allowed
extension. -/
def hasAcceptedFile (allowed : List String) (req : AnalyzeRequest) : Bool :=
  match req.resume_file with
  | some f => strTruthy f.filename && allowed_file allowed f.filename
  | none => false

/-- Counterexample to C4 as stated: with an accepted `.pdf` attached
whose extraction yields no text and no `resume_text` field, neither
source yields resume text, yet the 400 message is
`"Could not read PDF text"`, not `"No resume provided"`. -/
theorem analyze_no_resume_message_counterexample :
    analyze_resume ["pdf"] coNoText
      ⟨some ⟨"cv.pdf", [37, 80, 68, 70]⟩, none, none⟩ DB.empty =
      (.clientError 400 "Could not read PDF text", DB.empty) ∧
    "Could not read PDF text" ≠ "No resume provided" := by
  exact ⟨by decide, by decide⟩

/-- C4 (amended): when no accepted file is attached and the
`resume_text` field is absent or empty, analyze returns the 400 input
error `"No resume provided"`; and every 4xx outcome of analyze leaves
the store untouched (zero rows written). -/
theorem analyze_no_resume_zero_writes (allowed : List String)
    (co : Collaborators) (req : AnalyzeRequest) (db : DB) :
    (hasAcceptedFile allowed req = false →
      optStrTruthy req.resume_text = false →
      analyze_resume allowed co req db =
        (.clientError 400 "No resume provided", db)) ∧
    (∀ s m db', analyze_resume allowed co req db = (.clientError s m, db') →
      db' = db) := by
  constructor
  · intro hfile htext
    have hfall : fallbackText req = .error "No resume provided" := by
      rw [fallbackText]
      cases hrt : req.resume_text with
      | none => rfl
      | some t =>
        rw [hrt] at htext
        simp only [optStrTruthy] at htext
        simp only [htext, Bool.false_eq_true, if_false]
    have hres : resolveResumeText allowed co req =
        .error "No resume provided" := by
      rw [resolveResumeText]
      cases hrf : req.resume_file with
      | none => exact hfall
      | some f =>
        simp only [hasAcceptedFile, hrf] at hfile
        simp [hfile, hfall]
    rw [analyze_resume, hres]
  · exact fun s m db' h => analyze_clientError_db_eq allowed co req db s m db' h

/-- Witness for the amended C4 on a request with no file and no
`resume_text`. -/
theorem analyze_no_resume_zero_writes_witness :
    analyze_resume [] coSample ⟨none, none, none⟩ DB.empty =
      (.clientError 400 "No resume provided", DB.empty) :=
  (analyze_no_resume_zero_writes [] coSample ⟨none, none, none⟩
    DB.empty).1 rfl rfl

/-- C8: an identifier resolving to no stored Resume (respectively
AnalysisResult) makes `GET /resume/<id>` return the 404
`"Resume not found"` (respectively `GET /analysis/<id>` the 404
`"Analysis result not found"`), with the store untouched — never the
500 branch. -/
theorem lookup_not_found_404 (db : DB) (rid aid : Nat) :
    (db.findResume rid = none →
      get_resume rid db = (.clientError 404 "Resume not found", db)) ∧
    (db.findAnalysis aid = none →
      get_analysis aid db =
        (.clientError 404 "Analysis result not found", db)) := by
  constructor
  · intro h; simp only [get_resume, h]
  · intro h; simp only [get_analysis, h]

/-- Witness for C8 on an empty store. -/
theorem lookup_not_found_404_witness :
    get_resume 1 DB.empty = (.clientError 404 "Resume not found", DB.empty) ∧
    get_analysis 1 DB.empty =
      (.clientError 404 "Analysis result not found", DB.empty) :=
  ⟨(lookup_not_found_404 DB.empty 1 1).1 rfl,
    (lookup_not_found_404 DB.empty 1 1).2 rfl⟩

/-- `pySlice` keeps at most `n` characters. -/
lemma pySlice_length (s : String) (n : Nat) :
    (pySlice s n).length = min n s.length := by
  show (s.data.take n).length = min n s.length
  rw [List.length_take]
  rfl

/-- A successful history build relates input rows to output entries
pointwise. -/
lemma buildHistory_forall₂ (db : DB) :
    ∀ (l : List AnalysisResult) (es : List HistoryEntry),
      buildHistory db l = .ok es →
      List.Forall₂ (fun a e => historyEntry db a = .ok e) l es := by
  intro l
  induction l with
  | nil =>
    intro es h
    simp only [buildHistory, Except.ok.injEq] at h
    subst h
    exact List.Forall₂.nil
  | cons a l ih =>
    intro es h
    simp only [buildHistory] at h
    cases he : historyEntry db a with
    | error e => rw [he] at h; simp at h
    | ok entry =>
      rw [he] at h
      cases hb : buildHistory db l with
      | error e => rw [hb] at h; simp at h
      | ok entries =>
        rw [hb] at h
        simp only [Except.ok.injEq] at h
        subst h
        exact List.Forall₂.cons he (ih entries hb)

/-- Pointwise relations pair each member of the right list with some
member of the left list. -/
lemma forall₂_mem_right {α β : Type} {R : α → β → Prop} :
    ∀ {l : List α} {es : List β}, List.Forall₂ R l es →
      ∀ e ∈ es, ∃ a ∈ l, R a e := by
  intro l es h
  induction h with
  | nil => intro e he; cases he
  | cons hab _ ih =>
    intro e he
    cases he with
    | head => exact ⟨_, List.mem_cons_self _ _, hab⟩
    | tail _ hmem =>
      obtain ⟨a, hal, hr⟩ := ih e hmem
      exact ⟨a, List.mem_cons_of_mem _ hal, hr⟩

/-- What a successfully built entry contains: the row's scalar fields,
a present associated Resume, and the two previews as computed by the
source expressions. -/
lemma historyEntry_ok_fields (db : DB) (a : AnalysisResult)
    (e : HistoryEntry) (h : historyEntry db a = .ok e) :
    e.id = a.id ∧ e.resume_id = a.resume_id ∧ e.job_id = a.job_id ∧
    e.created_at = a.created_at ∧
    (∃ res, db.findResume a.resume_id = some res ∧
      e.resume_preview =
        (if res.resume_text.length > 200
         then pySlice res.resume_text 200 ++ "..."
         else res.resume_text)) ∧
    e.jd_preview = jd_preview_of (a.job_id.bind db.findJob) := by
  cases hfind : db.findResume a.resume_id with
  | none =>
    simp only [historyEntry, hfind, resume_preview_of] at h
    exact Except.noConfusion h
  | some res =>
    simp only [historyEntry, hfind, resume_preview_of,
      Except.ok.injEq] at h
    subst h
    exact ⟨rfl, rfl, rfl, rfl, ⟨res, rfl, rfl⟩, rfl⟩

/-- C7: in every history response entry, each preview equals the first
200 characters of the associated source text plus `"..."` (length
exactly 203) when that text exceeds 200 characters, and equals the
source text itself otherwise; `jd_preview` is null exactly when no Job
row is associated. -/
theorem history_previews_truncated (limit : Nat) (db : DB)
    (es : List HistoryEntry) (db' : DB)
    (h : get_history limit db = (.ok es, db')) :
    ∀ e ∈ es,
      (∃ res, db.findResume e.resume_id = some res ∧
        (res.resume_text.length > 200 →
          e.resume_preview = pySlice res.resume_text 200 ++ "..." ∧
          e.resume_preview.length = 203) ∧
        (res.resume_text.length ≤ 200 →
          e.resume_preview = res.resume_text)) ∧
      (∀ job, e.job_id.bind db.findJob = some job →
        (job.job_description.length > 200 →
          e.jd_preview = some (pySlice job.job_description 200 ++ "...") ∧
          ∃ p, e.jd_preview = some p ∧ p.length = 203) ∧
        (job.job_description.length ≤ 200 →
          e.jd_preview = some job.job_description)) ∧
      (e.job_id.bind db.findJob = none → e.jd_preview = none) := by
  have hb : buildHistory db
      ((List.insertionSort createdDesc db.analyses).take limit) = .ok es := by
    rw [get_history] at h
    cases hbh : buildHistory db
        ((List.insertionSort createdDesc db.analyses).take limit) with
    | error m => rw [hbh] at h; simp at h
    | ok history =>
      rw [hbh] at h
      simp only [Prod.mk.injEq] at h
      obtain ⟨h1, -⟩ := h
      injection h1 with h1
      rw [h1]
  intro e he
  obtain ⟨a, -, hae⟩ :=
    forall₂_mem_right (buildHistory_forall₂ db _ es hb) e he
  obtain ⟨-, hrid, hjid, -, ⟨res, hfind, hrp⟩, hjp⟩ :=
    historyEntry_ok_fields db a e hae
  refine ⟨⟨res, by rw [hrid]; exact hfind, ?_, ?_⟩, ?_, ?_⟩
  · intro hlong
    rw [hrp, if_pos hlong]
    refine ⟨rfl, ?_⟩
    rw [String.length_append, pySlice_length]
    have h3 : ("..." : String).length = 3 := rfl
    rw [h3]
    omega
  · intro hshort
    rw [hrp, if_neg (by omega)]
  · intro job hjob
    rw [hjid] at hjob
    rw [hjp, hjob]
    simp only [jd_preview_of]
    constructor
    · intro hlong
      rw [if_pos hlong]
      refine ⟨rfl, ⟨_, rfl, ?_⟩⟩
      rw [String.length_append, pySlice_length]
      have h3 : ("..." : String).length = 3 := rfl
      rw [h3]
      omega
    · intro hshort
      rw [if_neg (by omega)]
  · intro hnone
    rw [hjid] at hnone
    rw [hjp, hnone]
    simp [jd_preview_of]

/-- Store with one 300-character resume text and a short job
description, for exercising the preview truncation. -/
def dbLong : DB :=
  ⟨[⟨1, String.mk (List.replicate 300 'x'), 0⟩], [⟨1, "short jd", 1⟩],
    [⟨1, 1, some 1, some 85, 70, 90, ⟨70, "a"⟩, ⟨[], "s"⟩,
      some ⟨85, "m"⟩, 2⟩], 2, 2, 2, 3⟩

/-- The single history entry `GET /history` renders over `dbLong`. -/
def eLong : HistoryEntry :=
  ⟨1, 1, some 1, some 85, 70, 90, 2,
    pySlice (String.mk (List.replicate 300 'x')) 200 ++ "...",
    some "short jd"⟩

set_option maxRecDepth 4000 in
/-- Witness for C7, instantiated at the single entry rendered over
`dbLong`. -/
theorem history_previews_truncated_witness :
    (∃ res, dbLong.findResume eLong.resume_id = some res ∧
      (res.resume_text.length > 200 →
        eLong.resume_preview = pySlice res.resume_text 200 ++ "..." ∧
        eLong.resume_preview.length = 203) ∧
      (res.resume_text.length ≤ 200 →
        eLong.resume_preview = res.resume_text)) ∧
    (∀ job, eLong.job_id.bind dbLong.findJob = some job →
      (job.job_description.length > 200 →
        eLong.jd_preview = some (pySlice job.job_description 200 ++ "...") ∧
        ∃ p, eLong.jd_preview = some p ∧ p.length = 203) ∧
      (job.job_description.length ≤ 200 →
        eLong.jd_preview = some job.job_description)) ∧
    (eLong.job_id.bind dbLong.findJob = none → eLong.jd_preview = none) :=
  history_previews_truncated 20 dbLong [eLong] dbLong (by decide) eLong
    (List.mem_singleton.mpr rfl)

/-- A 200 history response is exactly a successful build over the
sorted, limited query. -/
lemma get_history_ok_build (limit : Nat) (db : DB)
    (es : List HistoryEntry) (db' : DB)
    (h : get_history limit db = (.ok es, db')) :
    buildHistory db
      ((List.insertionSort createdDesc db.analyses).take limit) =
      .ok es := by
  rw [get_history] at h
  cases hbh : buildHistory db
      ((List.insertionSort createdDesc db.analyses).take limit) with
  | error m => rw [hbh] at h; simp at h
  | ok history =>
    rw [hbh] at h
    simp only [Prod.mk.injEq] at h
    obtain ⟨h1, -⟩ := h
    injection h1 with h1
    rw [h1]

/-- Pointwise-related lists have equal images under pointwise-equal
projections. -/
lemma forall₂_map_eq {α β γ : Type} {R : α → β → Prop} (f : α → γ)
    (g : β → γ) (H : ∀ a b, R a b → f a = g b) :
    ∀ {l1 : List α} {l2 : List β}, List.Forall₂ R l1 l2 →
      l1.map f = l2.map g := by
  intro l1 l2 h
  induction h with
  | nil => rfl
  | cons hab _ ih => simp only [List.map_cons, ih, H _ _ hab]

/-- C6: a 200 history response has at most `limit` entries, is ordered
by creation time descending, and consists of the most recently created
AnalysisResult rows: the stored rows split (up to permutation) into the
rendered ones and dropped ones, every dropped row is no newer than any
rendered row, and rows are only dropped once the response is full. -/
theorem history_limit_most_recent (limit : Nat) (db : DB)
    (es : List HistoryEntry) (db' : DB)
    (h : get_history limit db = (.ok es, db')) :
    es.length ≤ limit ∧
    List.Pairwise (fun e1 e2 => e2.created_at ≤ e1.created_at) es ∧
    ∃ sel dropped : List AnalysisResult,
      db.analyses.Perm (sel ++ dropped) ∧
      List.Forall₂
        (fun a e => historyEntry db a = .ok e ∧ e.id = a.id ∧
          e.created_at = a.created_at) sel es ∧
      (∀ x ∈ sel, ∀ y ∈ dropped, y.created_at ≤ x.created_at) ∧
      (dropped ≠ [] → es.length = limit) := by
  have hb := get_history_ok_build limit db es db' h
  have hf := buildHistory_forall₂ db _ es hb
  have hlen := hf.length_eq
  have hsort : List.Sorted createdDesc
      (List.insertionSort createdDesc db.analyses) :=
    List.sorted_insertionSort createdDesc db.analyses
  have hself : List.Pairwise createdDesc
      ((List.insertionSort createdDesc db.analyses).take limit) :=
    hsort.sublist (List.take_sublist _ _)
  have hf2 : List.Forall₂
      (fun a e => historyEntry db a = .ok e ∧ e.id = a.id ∧
        e.created_at = a.created_at)
      ((List.insertionSort createdDesc db.analyses).take limit) es :=
    hf.imp (fun {a e} hae =>
      ⟨hae, (historyEntry_ok_fields db a e hae).1,
        (historyEntry_ok_fields db a e hae).2.2.2.1⟩)
  refine ⟨?_, ?_, (List.insertionSort createdDesc db.analyses).take limit,
    (List.insertionSort createdDesc db.analyses).drop limit, ?_, hf2, ?_, ?_⟩
  · rw [← hlen]; exact List.length_take_le _ _
  · have hmap :
        ((List.insertionSort createdDesc db.analyses).take limit).map
          (·.created_at) = es.map (·.created_at) :=
      forall₂_map_eq _ _
        (fun a e hae =>
          ((historyEntry_ok_fields db a e hae).2.2.2.1).symm) hf
    have hp : List.Pairwise (fun x y : Nat => y ≤ x)
        (((List.insertionSort createdDesc db.analyses).take limit).map
          (·.created_at)) :=
      List.pairwise_map.mpr hself
    rw [hmap] at hp
    exact List.pairwise_map.mp hp
  · rw [List.take_append_drop]
    exact (List.perm_insertionSort createdDesc db.analyses).symm
  · exact fun x hx y hy => hsort.rel_of_mem_take_of_mem_drop hx hy
  · intro hne
    have hlong : ¬((List.insertionSort createdDesc db.analyses).length ≤
        limit) := fun hle => hne (List.drop_eq_nil_of_le hle)
    rw [← hlen, List.length_take]
    omega

/-- Store with two analyses at ticks 1 and 3, used to exercise
`GET /history?limit=1`. -/
def dbTwo : DB :=
  ⟨[⟨1, "r1", 0⟩, ⟨2, "r2", 2⟩], [],
    [⟨1, 1, none, none, 70, 90, ⟨70, "a"⟩, ⟨[], "s"⟩, none, 1⟩,
     ⟨2, 2, none, none, 70, 90, ⟨70, "a"⟩, ⟨[], "s"⟩, none, 3⟩],
    3, 1, 3, 4⟩

/-- Witness for C6: `limit=1` over two stored analyses returns exactly
the most recent one. -/
theorem history_limit_most_recent_witness :
    ([(⟨2, 2, none, none, 70, 90, 3, "r2", none⟩ :
        HistoryEntry)]).length ≤ 1 ∧
    List.Pairwise (fun e1 e2 => e2.created_at ≤ e1.created_at)
      [(⟨2, 2, none, none, 70, 90, 3, "r2", none⟩ : HistoryEntry)] ∧
    ∃ sel dropped : List AnalysisResult,
      dbTwo.analyses.Perm (sel ++ dropped) ∧
      List.Forall₂
        (fun a e => historyEntry dbTwo a = .ok e ∧ e.id = a.id ∧
          e.created_at = a.created_at) sel
        [(⟨2, 2, none, none, 70, 90, 3, "r2", none⟩ : HistoryEntry)] ∧
      (∀ x ∈ sel, ∀ y ∈ dropped, y.created_at ≤ x.created_at) ∧
      (dropped ≠ [] →
        ([(⟨2, 2, none, none, 70, 90, 3, "r2", none⟩ :
            HistoryEntry)]).length = 1) :=
  history_limit_most_recent 1 dbTwo
    [(⟨2, 2, none, none, 70, 90, 3, "r2", none⟩ : HistoryEntry)] dbTwo
    (by decide)

/-- The only exception a history entry build can raise is the
`AttributeError` of the unguarded `item.resume.resume_text`. -/
lemma historyEntry_error_msg (db : DB) (a : AnalysisResult) (m : String)
    (h : historyEntry db a = .error m) :
    m = "AttributeError: NoneType object has no attribute resume_text" := by
  cases hfind : db.findResume a.resume_id with
  | none =>
    simp only [historyEntry, hfind, resume_preview_of,
      Except.error.injEq] at h
    exact h.symm
  | some res =>
    simp only [historyEntry, hfind, resume_preview_of] at h
    exact Except.noConfusion h

/-- One failing entry poisons the whole history build. -/
lemma buildHistory_error_of_mem (db : DB) :
    ∀ (l : List AnalysisResult) (a : AnalysisResult), a ∈ l →
      historyEntry db a =
        .error "AttributeError: NoneType object has no attribute resume_text" →
      buildHistory db l =
        .error "AttributeError: NoneType object has no attribute resume_text" := by
  intro l
  induction l with
  | nil => intro a ha _; cases ha
  | cons b l ih =>
    intro a ha herr
    simp only [buildHistory]
    cases hb : historyEntry db b with
    | error m =>
      have hm := historyEntry_error_msg db b m hb
      subst hm
      rfl
    | ok entry =>
      rcases List.mem_cons.mp ha with rfl | hal
      · rw [herr] at hb; exact Except.noConfusion hb
      · rw [ih a hal herr]

/-- C10: building `resume_preview` for a row whose associated Resume is
absent dereferences the absent resume in the else branch and raises,
while `jd_preview`'s guarded else yields null for an absent Job; so one
such row in the selected page turns the whole history request into a
500 instead of a list with a null preview. -/
theorem history_orphan_resume_500 (db : DB) :
    (∀ a : AnalysisResult, db.findResume a.resume_id = none →
      historyEntry db a =
        .error "AttributeError: NoneType object has no attribute resume_text") ∧
    (∀ a : AnalysisResult, ∀ res, db.findResume a.resume_id = some res →
      a.job_id.bind db.findJob = none →
      ∃ e, historyEntry db a = .ok e ∧ e.jd_preview = none) ∧
    (∀ limit : Nat,
      (∃ a ∈ (List.insertionSort createdDesc db.analyses).take limit,
        db.findResume a.resume_id = none) →
      get_history limit db =
        (.serverError
          "AttributeError: NoneType object has no attribute resume_text",
          db)) := by
  refine ⟨fun a ha => ?_, fun a res hres hjob => ?_, fun limit hex => ?_⟩
  · simp only [historyEntry, ha, resume_preview_of]
  · have hE : historyEntry db a =
        .ok ⟨a.id, a.resume_id, a.job_id, a.match_score, a.ats_score,
          a.quality_score, a.created_at,
          (if res.resume_text.length > 200
           then pySlice res.resume_text 200 ++ "..."
           else res.resume_text),
          jd_preview_of (a.job_id.bind db.findJob)⟩ := by
      simp only [historyEntry, hres, resume_preview_of]
    refine ⟨_, hE, ?_⟩
    rw [hjob]
    rfl
  · obtain ⟨a, hmem, ha⟩ := hex
    have herr : historyEntry db a =
        .error "AttributeError: NoneType object has no attribute resume_text" := by
      simp only [historyEntry, ha, resume_preview_of]
    have hbuild := buildHistory_error_of_mem db _ a hmem herr
    simp only [get_history, hbuild]

/-- Store holding one analysis row whose `resume_id` (5) resolves to no
Resume row. -/
def dbOrphan : DB :=
  ⟨[], [], [⟨1, 5, none, none, 0, 0, ⟨0, "z"⟩, ⟨[], "z"⟩, none, 0⟩],
    1, 1, 2, 1⟩

/-- Witness for C10: the orphaned row makes the whole history request
return the 500. -/
theorem history_orphan_resume_500_witness :
    get_history 20 dbOrphan =
      (.serverError
        "AttributeError: NoneType object has no attribute resume_text",
        dbOrphan) :=
  (history_orphan_resume_500 dbOrphan).2.2 20
    ⟨⟨1, 5, none, none, 0, 0, ⟨0, "z"⟩, ⟨[], "z"⟩, none, 0⟩,
      by decide, rfl⟩
